import Mathlib

/-!
# Verification of the wavesense simulation harness (`sim_main.cpp`)

A shallow embedding of the Verilator test harness for the `counter` DUT.
The harness state carries the DUT input fields (`clk`, `rst`, `en`), the
global simulated-time counter `main_time`, and a log of externally
observable events (DUT evaluations, recorder snapshots, trace-file
open/close, DUT finalization, the unknown-scenario diagnostic).

The log is kept newest-first for O(1) extension; `trace` reverses it into
chronological order, which is the order the C++ program performs the
effects in.  `tick`, `reset` and `runMain` are transcribed directly from
the source; the recorder pointer `tfp` is modelled as a `Bool` (present or
null), matching the `if (tfp)` guards in the source.
-/

set_option maxHeartbeats 1000000
set_option maxRecDepth 100000

namespace Wavesense

/-- An externally observable effect of the harness. `eval` records the DUT
input values at the moment `top->eval()` is called; `dump` records the
simulated time passed to `tfp->dump` together with the input values visible
in that snapshot. -/
inductive Event where
  | eval (clk rst en : Nat)
  | dump (t : Nat) (clk rst en : Nat)
  | openFile
  | closeFile
  | finalize
  | diag
deriving DecidableEq

/-- Harness state: the DUT input fields, the global `main_time` counter,
and the event log (newest event first). -/
structure Harness where
  clk : Nat
  rst : Nat
  en : Nat
  main_time : Nat
  log : List Event
deriving DecidableEq

/-- The chronological event sequence of a run (the log, oldest first). -/
def trace (h : Harness) : List Event := h.log.reverse

/-- Append one event to the log. -/
def emit (e : Event) (h : Harness) : Harness := { h with log := e :: h.log }

/-- `top->eval()`: one DUT evaluation at the current input values. -/
def evalDut (h : Harness) : Harness := emit (.eval h.clk h.rst h.en) h

/-- `if (tfp) tfp->dump(main_time++)`: when the recorder is present, record
a snapshot at the current time and post-increment the time counter. -/
def dumpInc (tfp : Bool) (h : Harness) : Harness :=
  if tfp then
    { h with log := Event.dump h.main_time h.clk h.rst h.en :: h.log,
             main_time := h.main_time + 1 }
  else h

/-- `top->clk = v`. -/
def setClk (v : Nat) (h : Harness) : Harness := { h with clk := v }

/-- `top->rst = v`. -/
def setRst (v : Nat) (h : Harness) : Harness := { h with rst := v }

/-- `top->en = v`. -/
def setEn (v : Nat) (h : Harness) : Harness := { h with en := v }

/-- `tick(top, tfp)`: clk low, eval, dump, then clk high, eval, dump. -/
def tick (tfp : Bool) (h : Harness) : Harness :=
  dumpInc tfp (evalDut (setClk 1 (dumpInc tfp (evalDut (setClk 0 h)))))

/-- `for (int i = 0; i < n; ++i) tick(top, tfp)`. -/
def tickN (tfp : Bool) : Nat → Harness → Harness
  | 0, h => h
  | n + 1, h => tickN tfp n (tick tfp h)

/-- `reset(top, tfp, cycles)`: assert `rst`, eval, dump; `cycles` ticks;
deassert `rst`, eval, dump. -/
def reset (tfp : Bool) (cycles : Nat) (h : Harness) : Harness :=
  dumpInc tfp (evalDut (setRst 0
    (tickN tfp cycles (dumpInc tfp (evalDut (setRst 1 h))))))

/-- Harness state at entry of `main` (the input fields are assigned before
the first evaluation, `main_time` starts at 0, nothing logged yet). -/
def initHarness : Harness := ⟨0, 0, 0, 0, []⟩

/-- The `// Init` block of `main`: `clk = 0; rst = 0; en = 0; eval();
tfp->dump(main_time++)` — the baseline time-zero snapshot. In `main` the
recorder is always present. -/
def baselineInit (h : Harness) : Harness :=
  dumpInc true (evalDut (setEn 0 (setRst 0 (setClk 0 h))))

/-- The `if/else if` scenario dispatch chain of `main`, transcribed
branch by branch from the source. -/
def scenarioBody (test : String) (h : Harness) : Harness :=
  if test = "basic_counting" then
    tickN true 5 (setEn 0 (tickN true 20 (setEn 1 (reset true 1 h))))
  else if test = "hold_when_disabled" then
    tickN true 5 (setEn 1 (tickN true 10 (setEn 0
      (tickN true 5 (setEn 1 (reset true 1 h))))))
  else if test = "reset_behavior" then
    tickN true 5 (reset true 1 (setEn 0
      (tickN true 5 (reset true 2 (setEn 1 h)))))
  else if test = "rst_over_en_priority" then
    tickN true 6 (setRst 0 (tickN true 4 (setRst 1
      (tickN true 5 (setEn 1 (reset true 1 h))))))
  else if test = "wraparound" then
    tickN true 4 (setEn 0 (tickN true 4 (tickN true 254
      (setEn 1 (reset true 1 h)))))
  else if test = "mid_stream_reset" then
    tickN true 8 (setRst 0 (tick true (setRst 1
      (tickN true 8 (setEn 1 (reset true 1 h))))))
  else
    emit .diag h

/-- `main` for a given scenario name: open the trace file, run the
baseline initialization, dispatch the scenario, close the recorder,
finalize the DUT, and return the exit status (the source has the single
unconditional `return 0`). -/
def runMain (test : String) : Harness × Nat :=
  (emit .finalize (emit .closeFile
    (scenarioBody test (baselineInit (emit .openFile initHarness)))), 0)

/-- The source never inspects the outcome of `tfp->open(vcd_path)`:
no branch in `main` depends on whether the trace file could be opened, and
control falls through to the scenario and the final `return 0` either way.
`openOk` records that environmental outcome; faithfully to the source, it
is ignored. -/
def runMainOpen (test : String) (_openOk : Bool) : Harness × Nat :=
  runMain test

/-- Is an event a recorder snapshot? -/
def isDump : Event → Bool
  | .dump _ _ _ _ => true
  | _ => false

/-- Is an event a DUT evaluation? -/
def isEval : Event → Bool
  | .eval _ _ _ => true
  | _ => false

/-- Number of recorder snapshots in an event list. -/
def dumpCount (l : List Event) : Nat := l.countP isDump

/-- Number of DUT evaluations in an event list. -/
def evalCount (l : List Event) : Nat := l.countP isEval

/-- The simulated-time values passed to the recorder, in list order. -/
def dumpTimes (l : List Event) : List Nat :=
  l.filterMap fun e =>
    match e with
    | .dump t _ _ _ => some t
    | _ => none

/-- The `clk` values seen by successive DUT evaluations, in list order. -/
def evalClks (l : List Event) : List Nat :=
  l.filterMap fun e =>
    match e with
    | .eval c _ _ => some c
    | _ => none

/-! ## Expected-trace generators, written from the spec's description
(§4.1): one tick is low-eval, low-dump, high-eval, high-dump; a reset is
an assert eval/dump, then the ticks, then a deassert eval/dump. -/

/-- Chronological events of one `tick` starting at time `t` with the given
`rst`/`en` values: low phase evaluated and recorded at `t`, high phase at
`t + 1`. -/
def tickTrace (t rst en : Nat) : List Event :=
  [.eval 0 rst en, .dump t 0 rst en, .eval 1 rst en, .dump (t + 1) 1 rst en]

/-- Chronological events of `n` consecutive ticks starting at time `t`. -/
def tickTraceN : Nat → Nat → Nat → Nat → List Event
  | 0, _, _, _ => []
  | n + 1, t, rst, en => tickTrace t rst en ++ tickTraceN n (t + 2) rst en

/-- Chronological events of `reset` with `c` cycles starting at time `t`
from clock value `clk`: the assert snapshot at `t`, the ticks at
`t + 1 … t + 2c`, the deassert snapshot at `t + 2c + 1`.  When `c = 0`
the clock is never driven, so the deassert phase still sees `clk`. -/
def resetTrace (c t clk en : Nat) : List Event :=
  [.eval clk 1 en, .dump t clk 1 en] ++ tickTraceN c (t + 1) 1 en ++
  [.eval (if c = 0 then clk else 1) 0 en,
   .dump (t + 2 * c + 1) (if c = 0 then clk else 1) 0 en]

/-- Newest-first events of one `tick` (the reverse of `tickTrace`). -/
def tickEvNF (t rst en : Nat) : List Event :=
  [.dump (t + 1) 1 rst en, .eval 1 rst en, .dump t 0 rst en, .eval 0 rst en]

/-- Newest-first events of `n` consecutive ticks starting at time `t`. -/
def tickNF : Nat → Nat → Nat → Nat → List Event
  | 0, _, _, _ => []
  | n + 1, t, rst, en => tickNF n (t + 2) rst en ++ tickEvNF t rst en

/-- Newest-first events of `n` ticks with a null recorder: only the two
evaluations per tick, no snapshots, no time advance. -/
def tickNFnull : Nat → Nat → Nat → List Event
  | 0, _, _ => []
  | n + 1, rst, en => tickNFnull n rst en ++ [.eval 1 rst en, .eval 0 rst en]

/-- Newest-first events of `reset` with `c` cycles starting at time `t`. -/
def resetNF (c t clk en : Nat) : List Event :=
  [.dump (t + 2 * c + 1) (if c = 0 then clk else 1) 0 en,
   .eval (if c = 0 then clk else 1) 0 en] ++ tickNF c (t + 1) 1 en ++
  [.dump t clk 1 en, .eval clk 1 en]

/-! ## The scenario table of §4.2, modelled from the spec
Each scenario is an ordered list of tagged primitive operations; this is
the spec-side description that the dispatch chain of `main` is compared
against (claim C5 is this refinement). -/

/-- A primitive operation of a scenario script (§3, §4.2). -/
inductive Op where
  | setEnOp (v : Nat)
  | setRstOp (v : Nat)
  | tickOp (n : Nat)
  | resetScript (c : Nat)
deriving DecidableEq

/-- Modelled from the spec: the six-row scenario table of §4.2, verbatim.
Unknown names map to `none`. -/
def specScript : String → Option (List Op)
  | "basic_counting" =>
      some [.resetScript 1, .setEnOp 1, .tickOp 20, .setEnOp 0, .tickOp 5]
  | "hold_when_disabled" =>
      some [.resetScript 1, .setEnOp 1, .tickOp 5, .setEnOp 0, .tickOp 10,
            .setEnOp 1, .tickOp 5]
  | "reset_behavior" =>
      some [.setEnOp 1, .resetScript 2, .tickOp 5, .setEnOp 0,
            .resetScript 1, .tickOp 5]
  | "rst_over_en_priority" =>
      some [.resetScript 1, .setEnOp 1, .tickOp 5, .setRstOp 1, .tickOp 4,
            .setRstOp 0, .tickOp 6]
  | "wraparound" =>
      some [.resetScript 1, .setEnOp 1, .tickOp 254, .tickOp 4, .setEnOp 0,
            .tickOp 4]
  | "mid_stream_reset" =>
      some [.resetScript 1, .setEnOp 1, .tickOp 8, .setRstOp 1, .tickOp 1,
            .setRstOp 0, .tickOp 8]
  | _ => none

/-- Interpret one scripted operation with the Clock Sequencer primitives. -/
def execOp (tfp : Bool) (h : Harness) : Op → Harness
  | .setEnOp v => setEn v h
  | .setRstOp v => setRst v h
  | .tickOp n => tickN tfp n h
  | .resetScript c => reset tfp c h

/-- Run a whole script, left to right. -/
def execScript (tfp : Bool) (ops : List Op) (h : Harness) : Harness :=
  List.foldl (execOp tfp) h ops

/-- Total number of tick executions a script performs, counting the ticks
inside each `reset(c)` (which ticks `c` times). -/
def scriptTicks : List Op → Nat
  | [] => 0
  | .tickOp n :: ops => n + scriptTicks ops
  | .resetScript c :: ops => c + scriptTicks ops
  | _ :: ops => scriptTicks ops

/-- Number of `reset` invocations a script performs. -/
def scriptResets : List Op → Nat
  | [] => 0
  | .resetScript _ :: ops => 1 + scriptResets ops
  | _ :: ops => scriptResets ops

/-! ## Characterization lemmas for the Clock Sequencer primitives -/

theorem tick_true_spec (h : Harness) :
    tick true h = ⟨1, h.rst, h.en, h.main_time + 2,
      tickEvNF h.main_time h.rst h.en ++ h.log⟩ := rfl

theorem tick_false_spec (h : Harness) :
    tick false h = ⟨1, h.rst, h.en, h.main_time,
      .eval 1 h.rst h.en :: .eval 0 h.rst h.en :: h.log⟩ := rfl

theorem tickN_true_spec (n : Nat) (h : Harness) :
    tickN true n h = ⟨(if n = 0 then h.clk else 1), h.rst, h.en,
      h.main_time + 2 * n, tickNF n h.main_time h.rst h.en ++ h.log⟩ := by
  induction n generalizing h with
  | zero => simp [tickN, tickNF]
  | succ n ih =>
      rw [show tickN true (n + 1) h = tickN true n (tick true h) from rfl,
        tick_true_spec, ih]
      simp only [tickNF, Harness.mk.injEq, List.append_assoc,
        Nat.succ_ne_zero, if_false, ite_self]
      and_intros <;> first | trivial | omega

theorem tickN_false_spec (n : Nat) (h : Harness) :
    tickN false n h = ⟨(if n = 0 then h.clk else 1), h.rst, h.en,
      h.main_time, tickNFnull n h.rst h.en ++ h.log⟩ := by
  induction n generalizing h with
  | zero => simp [tickN, tickNFnull]
  | succ n ih =>
      rw [show tickN false (n + 1) h = tickN false n (tick false h) from rfl,
        tick_false_spec, ih]
      simp [tickNFnull]

theorem reset_true_spec (c : Nat) (h : Harness) :
    reset true c h = ⟨(if c = 0 then h.clk else 1), 0, h.en,
      h.main_time + (2 * c + 2),
      resetNF c h.main_time h.clk h.en ++ h.log⟩ := by
  rw [show reset true c h = dumpInc true (evalDut (setRst 0 (tickN true c
      (⟨h.clk, 1, h.en, h.main_time + 1,
        .dump h.main_time h.clk 1 h.en :: .eval h.clk 1 h.en :: h.log⟩ :
        Harness)))) from rfl,
    tickN_true_spec]
  simp only [dumpInc, evalDut, setRst, emit, if_true, resetNF,
    Harness.mk.injEq, List.append_assoc, List.cons_append, List.nil_append]
  rw [show h.main_time + 1 + 2 * c = h.main_time + 2 * c + 1 from by omega]
  and_intros <;> trivial

theorem reset_false_spec (c : Nat) (h : Harness) :
    reset false c h = ⟨(if c = 0 then h.clk else 1), 0, h.en, h.main_time,
      (.eval (if c = 0 then h.clk else 1) 0 h.en ::
        (tickNFnull c 1 h.en ++ [.eval h.clk 1 h.en])) ++ h.log⟩ := by
  rw [show reset false c h = dumpInc false (evalDut (setRst 0 (tickN false c
      (⟨h.clk, 1, h.en, h.main_time,
        .eval h.clk 1 h.en :: h.log⟩ : Harness)))) from rfl,
    tickN_false_spec]
  simp [dumpInc, evalDut, setRst, emit]

/-! ## Reversal: newest-first generators versus chronological traces -/

theorem tickEvNF_reverse (t rst en : Nat) :
    (tickEvNF t rst en).reverse = tickTrace t rst en := rfl

theorem tickNF_reverse (n : Nat) (t rst en : Nat) :
    (tickNF n t rst en).reverse = tickTraceN n t rst en := by
  induction n generalizing t with
  | zero => rfl
  | succ n ih =>
      simp [tickNF, tickTraceN, List.reverse_append, ih, tickEvNF_reverse]

theorem resetNF_reverse (c t clk en : Nat) :
    (resetNF c t clk en).reverse = resetTrace c t clk en := by
  simp [resetNF, resetTrace, List.reverse_append, tickNF_reverse]

theorem trace_tick_true (h : Harness) :
    trace (tick true h) =
      trace h ++ tickTrace h.main_time h.rst h.en := by
  rw [tick_true_spec]
  simp [trace, List.reverse_append, tickEvNF_reverse]

theorem trace_reset_true (c : Nat) (h : Harness) :
    trace (reset true c h) =
      trace h ++ resetTrace c h.main_time h.clk h.en := by
  rw [reset_true_spec]
  simp [trace, List.reverse_append, resetNF_reverse]

/-! ## Counting lemmas -/

theorem dumpCount_append (a b : List Event) :
    dumpCount (a ++ b) = dumpCount a + dumpCount b :=
  List.countP_append _ _ _

theorem evalCount_append (a b : List Event) :
    evalCount (a ++ b) = evalCount a + evalCount b :=
  List.countP_append _ _ _

theorem dumpCount_tickNF (n t rst en : Nat) :
    dumpCount (tickNF n t rst en) = 2 * n := by
  induction n generalizing t with
  | zero => rfl
  | succ n ih =>
      rw [show tickNF (n + 1) t rst en
          = tickNF n (t + 2) rst en ++ tickEvNF t rst en from rfl,
        dumpCount_append, ih]
      simp [dumpCount, tickEvNF, List.countP_cons, isDump]
      omega

theorem evalCount_tickNF (n t rst en : Nat) :
    evalCount (tickNF n t rst en) = 2 * n := by
  induction n generalizing t with
  | zero => rfl
  | succ n ih =>
      rw [show tickNF (n + 1) t rst en
          = tickNF n (t + 2) rst en ++ tickEvNF t rst en from rfl,
        evalCount_append, ih]
      simp [evalCount, tickEvNF, List.countP_cons, isEval]
      omega

theorem dumpCount_tickNFnull (n rst en : Nat) :
    dumpCount (tickNFnull n rst en) = 0 := by
  induction n with
  | zero => rfl
  | succ n ih =>
      rw [show tickNFnull (n + 1) rst en
          = tickNFnull n rst en ++ [.eval 1 rst en, .eval 0 rst en]
          from rfl, dumpCount_append, ih]
      rfl

theorem evalCount_tickNFnull (n rst en : Nat) :
    evalCount (tickNFnull n rst en) = 2 * n := by
  induction n with
  | zero => rfl
  | succ n ih =>
      rw [show tickNFnull (n + 1) rst en
          = tickNFnull n rst en ++ [.eval 1 rst en, .eval 0 rst en]
          from rfl, evalCount_append, ih]
      simp [evalCount, List.countP_cons, isEval]
      omega

theorem dumpCount_nil : dumpCount [] = 0 := rfl

theorem evalCount_nil : evalCount [] = 0 := rfl

theorem dumpCount_cons (e : Event) (l : List Event) :
    dumpCount (e :: l) = dumpCount l + (if isDump e then 1 else 0) :=
  List.countP_cons _ _ _

theorem evalCount_cons (e : Event) (l : List Event) :
    evalCount (e :: l) = evalCount l + (if isEval e then 1 else 0) :=
  List.countP_cons _ _ _

theorem dumpCount_resetNF (c t clk en : Nat) :
    dumpCount (resetNF c t clk en) = 2 * c + 2 := by
  simp only [resetNF, List.cons_append, List.nil_append, dumpCount_append,
    dumpCount_cons, dumpCount_tickNF, isDump]
  simp [dumpCount]

theorem evalCount_resetNF (c t clk en : Nat) :
    evalCount (resetNF c t clk en) = 2 * c + 2 := by
  simp only [resetNF, List.cons_append, List.nil_append, evalCount_append,
    evalCount_cons, evalCount_tickNF, isEval]
  simp [evalCount]

theorem dumpCount_tickTraceN (n t rst en : Nat) :
    dumpCount (tickTraceN n t rst en) = 2 * n := by
  induction n generalizing t with
  | zero => rfl
  | succ n ih =>
      rw [show tickTraceN (n + 1) t rst en
          = tickTrace t rst en ++ tickTraceN n (t + 2) rst en from rfl,
        dumpCount_append, ih]
      simp [dumpCount, tickTrace, List.countP_cons, isDump]
      omega

theorem dumpCount_resetTrace (c t clk en : Nat) :
    dumpCount (resetTrace c t clk en) = 2 * c + 2 := by
  simp only [resetTrace, List.cons_append, List.nil_append, dumpCount_append,
    dumpCount_cons, dumpCount_tickTraceN, isDump]
  simp [dumpCount]

/-! ## The claims -/

/-- C1: every call to `tick` performs exactly: clk low, evaluate, record at
the current time, increment time, clk high, evaluate, record, increment —
so exactly two DUT evaluations and two snapshots per call, appended in
low-then-high order, and simulated time advances by exactly 2. -/
theorem C1_tick_two_phase (h : Harness) :
    trace (tick true h) = trace h ++ tickTrace h.main_time h.rst h.en ∧
    tickTrace h.main_time h.rst h.en =
      [.eval 0 h.rst h.en, .dump h.main_time 0 h.rst h.en,
       .eval 1 h.rst h.en, .dump (h.main_time + 1) 1 h.rst h.en] ∧
    evalCount (tickTrace h.main_time h.rst h.en) = 2 ∧
    dumpCount (tickTrace h.main_time h.rst h.en) = 2 ∧
    (tick true h).main_time = h.main_time + 2 := by
  refine ⟨trace_tick_true h, rfl, rfl, rfl, ?_⟩
  rw [tick_true_spec]

/-- C2: `reset(dut, recorder, cycles)` performs exactly: assert `rst`,
evaluate, record, increment; then exactly `cycles` ticks; then deassert,
evaluate, record, increment.  The appended block opens with the `rst = 1`
snapshot (so for `cycles > 0` it is recorded before any tick), contributes
`2·cycles + 2` snapshots, and for `cycles = 0` the assert and deassert
snapshots are still produced with the clock never driven. -/
theorem C2_reset_sequence (c : Nat) (h : Harness) :
    trace (reset true c h)
      = trace h ++ resetTrace c h.main_time h.clk h.en ∧
    resetTrace c h.main_time h.clk h.en =
      [.eval h.clk 1 h.en, .dump h.main_time h.clk 1 h.en] ++
        tickTraceN c (h.main_time + 1) 1 h.en ++
        [.eval (if c = 0 then h.clk else 1) 0 h.en,
         .dump (h.main_time + 2 * c + 1) (if c = 0 then h.clk else 1)
           0 h.en] ∧
    (reset true c h).main_time = h.main_time + (2 * c + 2) ∧
    dumpCount (resetTrace c h.main_time h.clk h.en) = 2 * c + 2 ∧
    trace (reset true 0 h) = trace h ++
      [.eval h.clk 1 h.en, .dump h.main_time h.clk 1 h.en,
       .eval h.clk 0 h.en, .dump (h.main_time + 1) h.clk 0 h.en] ∧
    (reset true 0 h).clk = h.clk := by
  refine ⟨trace_reset_true c h, rfl, ?_, dumpCount_resetTrace c
    h.main_time h.clk h.en, ?_, ?_⟩
  · rw [reset_true_spec]
  · rw [trace_reset_true 0 h]
    simp [resetTrace, tickTraceN]
  · rw [reset_true_spec]
    simp

/-- C3: for every scenario name — each built-in and any unknown name — the
sequence of simulated-time values passed to the recorder over the whole
run is exactly 0, 1, 2, …: the k-th snapshot is recorded at time k − 1
(the baseline snapshot at time 0), strictly increasing with no gaps and no
repeats. -/
theorem C3_times_are_range (test : String) :
    dumpTimes (trace (runMain test).1)
      = List.range (dumpCount (trace (runMain test).1)) := by
  unfold runMain scenarioBody
  repeat' split
  all_goals decide

/-- C4: for every built-in scenario the number of recorded snapshots over
the whole run equals 2 × (total tick executions, counting ticks inside
reset) + 2 × (reset invocations) + 1 for the baseline snapshot, the totals
being read off the §4.2 script; in particular basic_counting records
exactly 55 snapshots. -/
theorem C4_snapshot_count :
    dumpCount (runMain "basic_counting").1.log
      = 2 * scriptTicks ((specScript "basic_counting").getD [])
        + 2 * scriptResets ((specScript "basic_counting").getD []) + 1 ∧
    dumpCount (runMain "hold_when_disabled").1.log
      = 2 * scriptTicks ((specScript "hold_when_disabled").getD [])
        + 2 * scriptResets ((specScript "hold_when_disabled").getD []) + 1 ∧
    dumpCount (runMain "reset_behavior").1.log
      = 2 * scriptTicks ((specScript "reset_behavior").getD [])
        + 2 * scriptResets ((specScript "reset_behavior").getD []) + 1 ∧
    dumpCount (runMain "rst_over_en_priority").1.log
      = 2 * scriptTicks ((specScript "rst_over_en_priority").getD [])
        + 2 * scriptResets ((specScript "rst_over_en_priority").getD []) + 1 ∧
    dumpCount (runMain "wraparound").1.log
      = 2 * scriptTicks ((specScript "wraparound").getD [])
        + 2 * scriptResets ((specScript "wraparound").getD []) + 1 ∧
    dumpCount (runMain "mid_stream_reset").1.log
      = 2 * scriptTicks ((specScript "mid_stream_reset").getD [])
        + 2 * scriptResets ((specScript "mid_stream_reset").getD []) + 1 ∧
    dumpCount (runMain "basic_counting").1.log = 55 := by
  decide

/-- C5: each built-in name dispatches to exactly the literal operation
sequence of the §4.2 table: from any harness state, the scenario body the
source executes equals the spec-table script interpreted operation by
operation, with no other DUT operations. -/
theorem C5_scripts_match (h : Harness) :
    scenarioBody "basic_counting" h
      = execScript true ((specScript "basic_counting").getD []) h ∧
    scenarioBody "hold_when_disabled" h
      = execScript true ((specScript "hold_when_disabled").getD []) h ∧
    scenarioBody "reset_behavior" h
      = execScript true ((specScript "reset_behavior").getD []) h ∧
    scenarioBody "rst_over_en_priority" h
      = execScript true ((specScript "rst_over_en_priority").getD []) h ∧
    scenarioBody "wraparound" h
      = execScript true ((specScript "wraparound").getD []) h ∧
    scenarioBody "mid_stream_reset" h
      = execScript true ((specScript "mid_stream_reset").getD []) h := by
  and_intros <;> rfl

/-- C6: dispatch is an exact, case-sensitive string match; for any name
different from all six built-ins the harness emits the diagnostic,
performs no DUT interaction beyond the single baseline evaluation and
snapshot, still closes the recorder and finalizes the DUT, and exits with
status 0. -/
theorem C6_unknown_scenario (test : String)
    (h1 : test ≠ "basic_counting") (h2 : test ≠ "hold_when_disabled")
    (h3 : test ≠ "reset_behavior") (h4 : test ≠ "rst_over_en_priority")
    (h5 : test ≠ "wraparound") (h6 : test ≠ "mid_stream_reset") :
    (runMain test).2 = 0 ∧
    trace (runMain test).1 =
      [.openFile, .eval 0 0 0, .dump 0 0 0 0, .diag, .closeFile,
       .finalize] := by
  unfold runMain scenarioBody
  rw [if_neg h1, if_neg h2, if_neg h3, if_neg h4, if_neg h5, if_neg h6]
  exact ⟨rfl, rfl⟩

/-- C6 witness: a case variant of a built-in name is dispatched as
unknown. -/
theorem C6_unknown_scenario_witness :
    (runMain "Basic_Counting").2 = 0 ∧
    trace (runMain "Basic_Counting").1 =
      [.openFile, .eval 0 0 0, .dump 0 0 0 0, .diag, .closeFile,
       .finalize] :=
  C6_unknown_scenario "Basic_Counting" (by decide) (by decide) (by decide)
    (by decide) (by decide) (by decide)

/-- C7 counterexample: when the trace file fails to open, the run is not
fatal and the scenario is not skipped — the exit status is still 0 and the
full basic_counting scenario executes, recording all 55 snapshots rather
than stopping before the scenario. -/
theorem C7_open_failure_counterexample :
    (runMainOpen "basic_counting" false).2 = 0 ∧
    dumpCount (runMainOpen "basic_counting" false).1.log = 55 :=
  ⟨rfl, by decide⟩

/-- C7 amended: the source never inspects the outcome of opening the trace
file — whether the open succeeds or fails, the run proceeds identically
through the whole scenario and terminates with exit status 0. -/
theorem C7_open_failure_ignored (test : String) (ok : Bool) :
    runMainOpen test ok = runMain test ∧ (runMainOpen test ok).2 = 0 :=
  ⟨rfl, rfl⟩

/-- C8: the time counter is incremented exactly together with a recorded
snapshot: for either primitive, with or without a recorder, the change in
`main_time` equals the change in snapshot count (so after any full run
`main_time` equals the total number of snapshots), and with a null
recorder time never advances while the DUT evaluations still occur. -/
theorem C8_time_equals_snapshots (tfp : Bool) (c : Nat) (h : Harness)
    (test : String) :
    (tick tfp h).main_time + dumpCount h.log
      = dumpCount (tick tfp h).log + h.main_time ∧
    (reset tfp c h).main_time + dumpCount h.log
      = dumpCount (reset tfp c h).log + h.main_time ∧
    (tick false h).main_time = h.main_time ∧
    dumpCount (tick false h).log = dumpCount h.log ∧
    evalCount (tick false h).log = evalCount h.log + 2 ∧
    (reset false c h).main_time = h.main_time ∧
    dumpCount (reset false c h).log = dumpCount h.log ∧
    evalCount (reset false c h).log = evalCount h.log + (2 * c + 2) ∧
    (runMain test).1.main_time = dumpCount (runMain test).1.log := by
  refine ⟨?_, ?_, ?_, ?_, ?_, ?_, ?_, ?_, ?_⟩
  · cases tfp
    · rw [tick_false_spec]
      simp [dumpCount_cons, isDump]
      omega
    · rw [tick_true_spec]
      simp only [dumpCount_append]
      rw [show dumpCount (tickEvNF h.main_time h.rst h.en) = 2 from rfl]
      omega
  · cases tfp
    · rw [reset_false_spec]
      simp [dumpCount_append, dumpCount_cons, dumpCount_tickNFnull,
        dumpCount_nil, isDump]
      omega
    · rw [reset_true_spec]
      simp only [dumpCount_append, dumpCount_resetNF]
      omega
  · rw [tick_false_spec]
  · rw [tick_false_spec]
    simp [dumpCount_cons, isDump]
  · rw [tick_false_spec]
    simp [evalCount_cons, isEval]
  · rw [reset_false_spec]
  · rw [reset_false_spec]
    simp only [dumpCount_append, dumpCount_cons, dumpCount_tickNFnull,
      isDump]
    simp [dumpCount]
  · rw [reset_false_spec]
    simp only [List.cons_append, evalCount_append, evalCount_cons,
      evalCount_tickNFnull, isEval]
    simp [evalCount]
    omega
  · unfold runMain scenarioBody
    repeat' split
    all_goals decide

/-- C9: a direct input assignment (`en` or `rst`) changes only that one
field — it appends no evaluation and no snapshot and does not advance
time — and the assigned value first becomes observable at the low-phase
snapshot of the next tick, or at the assert snapshot of the next reset. -/
theorem C9_input_assignment_frame (v c : Nat) (h : Harness) :
    trace (setEn v h) = trace h ∧
    (setEn v h).main_time = h.main_time ∧
    (setEn v h).clk = h.clk ∧ (setEn v h).rst = h.rst ∧
    (setEn v h).en = v ∧
    trace (setRst v h) = trace h ∧
    (setRst v h).main_time = h.main_time ∧
    (setRst v h).clk = h.clk ∧ (setRst v h).en = h.en ∧
    (setRst v h).rst = v ∧
    trace (tick true (setEn v h))
      = trace h ++ tickTrace h.main_time h.rst v ∧
    trace (tick true (setRst v h))
      = trace h ++ tickTrace h.main_time v h.en ∧
    trace (reset true c (setEn v h))
      = trace h ++ resetTrace c h.main_time h.clk v := by
  refine ⟨rfl, rfl, rfl, rfl, rfl, rfl, rfl, rfl, rfl, rfl, ?_, ?_, ?_⟩
  · rw [trace_tick_true]
    rfl
  · rw [trace_tick_true]
    rfl
  · rw [trace_reset_true]
    rfl

/-- C10: after baseline initialization `clk = 0`; after every completed
tick `clk = 1`; each tick evaluates the DUT at `clk = 0` and then at
`clk = 1` — exactly one rising edge per tick — so any tick entered with
`clk = 1` (every tick after the first clock-touching operation) also
presents a falling edge at its low phase, whatever scenario runs. -/
theorem C10_clock_edges (h : Harness) (tfp : Bool) (n : Nat) :
    (baselineInit h).clk = 0 ∧
    (tick tfp h).clk = 1 ∧
    evalClks (trace (tick tfp h)) = evalClks (trace h) ++ [0, 1] ∧
    (tickN tfp (n + 1) h).clk = 1 := by
  refine ⟨rfl, ?_, ?_, ?_⟩
  · cases tfp
    · rw [tick_false_spec]
    · rw [tick_true_spec]
  · cases tfp
    · rw [tick_false_spec]
      simp [trace, evalClks, List.filterMap_append]
    · rw [trace_tick_true]
      simp [evalClks, List.filterMap_append, tickTrace]
  · cases tfp
    · rw [tickN_false_spec]
      simp
    · rw [tickN_true_spec]
      simp

end Wavesense
